import Mathlib

/-!
# Badge capture stream — Realtime Intake & Auto-Dispatch Controller

Shallow embedding of `src/src/components/PhotoList.tsx` (the Realtime
Intake & Auto-Dispatch Controller of the badge-capture repository).

Modelling conventions:
* The controller state combines the React state hooks (`autoOpenGenerator`,
  `isArmed`), the module-level mutable variables (`generatorWin`,
  `lastAutoOpenTime`, lines 25–26), and the relevant Web Storage entries
  (`localStorage 'autoOpenGenerator'`, `sessionStorage 'generatorArmed'`,
  `sessionStorage 'openedPhotos'`).  The `openedPhotos` entry is held in
  parsed form (a duplicate-free list of ids), exactly as
  `getOpenedPhotosSet`/`markPhotoAsOpened` read and write it.
* Browser-decided outcomes (current time, whether the armed window was
  closed by the user, whether `window.open` is blocked, whether the
  signed-URL request fails, whether an exception is thrown during URL
  resolution or navigation) are inputs of type `BrowserEnv`.
* Side effects on the browser (tab navigation, `window.open` calls,
  `window.close`, toasts, console logs, the notification sound) are
  returned as a list of `Effect`s; toasts are recorded by their title.
* `URLSearchParams` is an external browser API; `serializeParams` models
  its `application/x-www-form-urlencoded` serialisation.
* JavaScript numbers (`Date.now()`) are modelled as `Nat`; note that the
  rate-gate comparison `now - lastAutoOpenTime < 2000` takes the same
  branch under truncated `Nat` subtraction as under JS arithmetic,
  since a negative JS difference and a truncated-to-zero Nat difference
  are both `< 2000`.
-/

set_option autoImplicit false

namespace BadgeCapture

/-- A row of the `photos` table (interface `Photo`, lines 12–20).
`file_url` is a required string column; `file_path`, `name`, `role` are
optional.  JS truthiness of a string field is `≠ ""`. -/
structure Photo where
  id : String
  file_url : String
  file_path : Option String
  created_at : String
  processed : Bool
  name : Option String
  role : Option String
deriving Repr, DecidableEq

/-- The controller's mutable state: React hooks, module-level variables and
the Web Storage keys they are persisted under. -/
structure DispatchState where
  /-- React state `autoOpenGenerator` (line 36). -/
  autoOpenGenerator : Bool
  /-- React state `isArmed` (line 39). -/
  isArmed : Bool
  /-- Module-level `generatorWin` handle (line 25); `none` models `null`. -/
  generatorWin : Option Unit
  /-- Module-level `lastAutoOpenTime` (line 26). -/
  lastAutoOpenTime : Nat
  /-- `localStorage` entry under key `autoOpenGenerator`. -/
  localAutoOpenGenerator : Option String
  /-- `sessionStorage` entry under key `generatorArmed`. -/
  sessionGeneratorArmed : Option String
  /-- `sessionStorage` entry under key `openedPhotos`, parsed. -/
  openedPhotos : List String
deriving Repr, DecidableEq

/-- Browser-decided inputs of one handler invocation. -/
structure BrowserEnv where
  /-- `Date.now()` at handler entry. -/
  now : Nat
  /-- Value of `generatorWin.closed` for the current handle, if any. -/
  winClosed : Bool
  /-- Whether `window.open` returns a window (false models pop-up blocking,
  where `window.open` returns `null`). -/
  popupAllowed : Bool
  /-- Result of `supabase.storage.createSignedUrl`: `some url` on success,
  `none` when the request errors (`StorageError`). -/
  signedUrl : Option String
  /-- Whether an exception propagates out of badge-URL resolution. -/
  resolveThrows : Bool
  /-- Whether the `generatorWin.location.href` navigation throws. -/
  navThrows : Bool
deriving Repr, DecidableEq

/-- Observable browser side effects of one handler invocation. -/
inductive Effect where
  /-- `generatorWin.location.href = url` (line 137). -/
  | winNavigate (url : String)
  /-- `generatorWin.focus()` (line 138). -/
  | winFocus
  /-- A call to `window.open(url, '_blank')`; whether it actually opened a
  window is decided by `BrowserEnv.popupAllowed`. -/
  | winOpen (url : String)
  /-- `generatorWin.close()` (line 108). -/
  | winClose
  /-- A toast, recorded by its title. -/
  | toast (title : String)
  /-- A `console.log`/`console.error` line. -/
  | consoleLog (msg : String)
  /-- `playNotificationSound()` (line 397). -/
  | sound
deriving Repr, DecidableEq

/-- The exit point taken by `autoOpenBadgeGenerator`. -/
inductive AutoOutcome where
  /-- Early return at the rate gate (line 120). -/
  | rateSkip
  /-- Early return at the dedup gate (line 127). -/
  | dedupSkip
  /-- Success by navigating the existing armed window (lines 135–138). -/
  | navigated
  /-- Success by the fallback `window.open` (lines 140–151). -/
  | openedFresh
  /-- Fallback `window.open` returned `null` (lines 142–149). -/
  | popupBlocked
  /-- The `catch` block ran (lines 160–167). -/
  | errored
deriving Repr, DecidableEq

/-- Result of one `autoOpenBadgeGenerator` invocation. -/
structure StepRes where
  state : DispatchState
  effects : List Effect
  outcome : AutoOutcome
deriving Repr, DecidableEq

/-- Default external badge-generator base URL (line 43). -/
def BADGES_URL : String := "https://growing-badges.lovable.app"

/-- Uppercase hex digit, as produced by percent-encoding. -/
def hexDigit (n : Nat) : Char :=
  if n < 10 then Char.ofNat (48 + n) else Char.ofNat (55 + n)

/-- The UTF-8 encoding of a character, as a list of byte values. -/
def utf8Bytes (c : Char) : List Nat :=
  let n := c.toNat
  if n < 0x80 then [n]
  else if n < 0x800 then [0xC0 + n / 0x40, 0x80 + n % 0x40]
  else if n < 0x10000 then
    [0xE0 + n / 0x1000, 0x80 + n / 0x40 % 0x40, 0x80 + n % 0x40]
  else
    [0xF0 + n / 0x40000, 0x80 + n / 0x1000 % 0x40, 0x80 + n / 0x40 % 0x40,
     0x80 + n % 0x40]

/-- Percent-encode one byte value as `%XY`. -/
def percentEncodeByte (b : Nat) : String :=
  String.mk ['%', hexDigit (b / 16 % 16), hexDigit (b % 16)]

/-- Characters `URLSearchParams` leaves unencoded. -/
def formUnreserved (c : Char) : Bool :=
  c.isAlphanum || c = '*' || c = '-' || c = '.' || c = '_'

/-- Model of the `URLSearchParams` component encoding
(`application/x-www-form-urlencoded`): unreserved characters kept, space
becomes `+`, everything else is percent-encoded via UTF-8. -/
def formEncode (s : String) : String :=
  s.data.foldl
    (fun acc c =>
      if formUnreserved c then acc.push c
      else if c = ' ' then acc.push '+'
      else acc ++ String.join ((utf8Bytes c).map percentEncodeByte))
    ""

/-- Model of `URLSearchParams.toString()` on the appended pairs. -/
def serializeParams (ps : List (String × String)) : String :=
  String.intercalate "&" (ps.map fun kv => formEncode kv.1 ++ "=" ++ formEncode kv.2)

/-- `getPhotoUrl` (lines 208–230): use `file_url` when truthy; otherwise,
when `file_path` is truthy, request a signed URL and fall back to
`photo.file_url` when the request errors (line 225); otherwise return
`photo.file_url`. -/
def getPhotoUrl (photo : Photo) (signedUrl : Option String) : String :=
  if photo.file_url ≠ "" then photo.file_url
  else
    match photo.file_path with
    | some p =>
      if p ≠ "" then
        match signedUrl with
        | some u => u
        | none => photo.file_url
      else photo.file_url
    | none => photo.file_url

/-- The query parameters appended in `getBadgeUrl` (lines 48–51) and,
identically, in `handleOpenInBadgeGenerator` (lines 235–238): `photo`
always, then `name` and `role` when truthy. -/
def buildParams (photoUrl : String) (photo : Photo) : List (String × String) :=
  [("photo", photoUrl)]
    ++ (match photo.name with
        | some n => if n ≠ "" then [("name", n)] else []
        | none => [])
    ++ (match photo.role with
        | some r => if r ≠ "" then [("role", r)] else []
        | none => [])

/-- `getBadgeUrl` (lines 46–53): resolve the photo URL and build
`BADGES_URL/?photo=...&name=...&role=...`. -/
def getBadgeUrl (badgesUrl : String) (photo : Photo) (signedUrl : Option String) : String :=
  badgesUrl ++ "/?" ++ serializeParams (buildParams (getPhotoUrl photo signedUrl) photo)

/-- `Set.add` on the stored id list (duplicate-free insertion). -/
def addToSet (l : List String) (x : String) : List String :=
  if l.contains x then l else l ++ [x]

/-- `markPhotoAsOpened` (lines 60–64): add the id to the
`sessionStorage 'openedPhotos'` set. -/
def markPhotoAsOpened (s : DispatchState) (photoId : String) : DispatchState :=
  { s with openedPhotos := addToSet s.openedPhotos photoId }

/-- `handleAutoOpenToggle` (lines 66–76): set and persist the flag; when
turning off, also disarm, remove the `generatorArmed` session entry and
null out the handle.  Note: the managed tab is NOT closed here. -/
def handleAutoOpenToggle (s : DispatchState) (checked : Bool) :
    DispatchState × List Effect :=
  let s1 := { s with
    autoOpenGenerator := checked
    localAutoOpenGenerator := some (toString checked) }
  if !checked then
    ({ s1 with isArmed := false, sessionGeneratorArmed := none, generatorWin := none }, [])
  else
    (s1, [])

/-- `armAutoOpen` (lines 78–102): open a blank tab; on success store the
handle, set `isArmed` and persist it; on `null` (pop-up blocked) show an
error toast, leaving `isArmed` false. -/
def armAutoOpen (env : BrowserEnv) (s : DispatchState) :
    DispatchState × List Effect :=
  if env.popupAllowed then
    ({ s with generatorWin := some (), isArmed := true, sessionGeneratorArmed := some "true" },
     [Effect.winOpen "about:blank", Effect.toast "Auto-abrir armado"])
  else
    ({ s with generatorWin := none },
     [Effect.winOpen "about:blank", Effect.toast "Erro"])

/-- `disarmAutoOpen` (lines 104–115): clear `isArmed` and its session
entry, close the managed tab when it is still open, null the handle. -/
def disarmAutoOpen (env : BrowserEnv) (s : DispatchState) :
    DispatchState × List Effect :=
  let closeFx : List Effect :=
    match s.generatorWin with
    | some _ => if env.winClosed then [] else [Effect.winClose]
    | none => []
  ({ s with isArmed := false, sessionGeneratorArmed := none, generatorWin := none },
   closeFx ++ [Effect.toast "Auto-abrir desarmado"])

/-- JS truthiness of `generatorWin && !generatorWin.closed` (line 135):
the handle is non-null and the tab it refers to has not been closed. -/
def winAlive (env : BrowserEnv) (s : DispatchState) : Bool :=
  s.generatorWin.isSome && !env.winClosed

/-- `autoOpenBadgeGenerator` (lines 117–168): rate gate, then dedup gate,
then resolve the badge URL and either navigate the existing window when
`generatorWin && !generatorWin.closed`, or fall back to `window.open`; on
success mark the photo opened and update `lastAutoOpenTime`; the `catch`
block and the pop-up-blocked early return leave the state unchanged. -/
def autoOpenBadgeGenerator (badgesUrl : String) (env : BrowserEnv)
    (s : DispatchState) (photo : Photo) : StepRes :=
  if env.now - s.lastAutoOpenTime < 2000 then
    ⟨s, [Effect.consoleLog "Rate limiting: skipping auto-open due to recent activity"],
     AutoOutcome.rateSkip⟩
  else if s.openedPhotos.contains photo.id then
    ⟨s, [Effect.consoleLog ("Photo already auto-opened in this session: " ++ photo.id)],
     AutoOutcome.dedupSkip⟩
  else if env.resolveThrows then
    ⟨s, [Effect.consoleLog "Error in auto-open:", Effect.toast "Erro"],
     AutoOutcome.errored⟩
  else if winAlive env s then
    if env.navThrows then
      ⟨s, [Effect.consoleLog "Error in auto-open:", Effect.toast "Erro"],
       AutoOutcome.errored⟩
    else
      ⟨markPhotoAsOpened { s with lastAutoOpenTime := env.now } photo.id,
       [Effect.winNavigate (getBadgeUrl badgesUrl photo env.signedUrl), Effect.winFocus,
        Effect.toast "📋 Gerador aberto automaticamente"],
       AutoOutcome.navigated⟩
  else if env.popupAllowed then
    ⟨markPhotoAsOpened { s with generatorWin := some (), lastAutoOpenTime := env.now } photo.id,
     [Effect.winOpen (getBadgeUrl badgesUrl photo env.signedUrl),
      Effect.toast "📋 Gerador aberto automaticamente"],
     AutoOutcome.openedFresh⟩
  else
    ⟨s, [Effect.winOpen (getBadgeUrl badgesUrl photo env.signedUrl),
         Effect.toast "Bloqueio de pop-up"],
     AutoOutcome.popupBlocked⟩

/-- `handleOpenInBadgeGenerator` (lines 232–249), the manual per-record
dispatch: build the badge URL (same computation as `getBadgeUrl`) and call
`window.open`; the return value of `window.open` is NOT checked, so a
blocked pop-up produces no toast; only a thrown error reaches the `catch`
block's generic toast.  No controller state is touched. -/
def handleOpenInBadgeGenerator (badgesUrl : String) (env : BrowserEnv)
    (s : DispatchState) (photo : Photo) : DispatchState × List Effect :=
  if env.resolveThrows then
    (s, [Effect.consoleLog "Error opening badge generator:", Effect.toast "Erro"])
  else
    (s, [Effect.winOpen (getBadgeUrl badgesUrl photo env.signedUrl)])

/-- The realtime `INSERT` handler (lines 392–407): notification sound and
arrival toast always; `autoOpenBadgeGenerator` only when
`autoOpenGenerator && !newPhoto.processed && isArmed`. -/
def onPhotoInsert (badgesUrl : String) (env : BrowserEnv)
    (s : DispatchState) (photo : Photo) : DispatchState × List Effect :=
  let fx0 : List Effect := [Effect.sound, Effect.toast "📸 Nova foto recebida!"]
  if s.autoOpenGenerator && !photo.processed && s.isArmed then
    let r := autoOpenBadgeGenerator badgesUrl env s photo
    (r.state, fx0 ++ r.effects)
  else
    (s, fx0)

/-- Fresh page load (lines 25–26 and 36–41): the React state initialisers
read the persisted storage entries, the module-level variables start at
`null` / `0`. -/
def pageLoad (localAuto sessionArmed : Option String)
    (openedStored : List String) : DispatchState :=
  { autoOpenGenerator := localAuto == some "true"
    isArmed := sessionArmed == some "true"
    generatorWin := none
    lastAutoOpenTime := 0
    localAutoOpenGenerator := localAuto
    sessionGeneratorArmed := sessionArmed
    openedPhotos := openedStored }

/-- A same-tab page reload.  Per the Web Storage standard both
`localStorage` and `sessionStorage` survive a reload of the same tab
(`sessionStorage` is cleared only when the tab itself is closed), while
module-level variables and React state are re-initialised by `pageLoad`. -/
def reload (s : DispatchState) : DispatchState :=
  pageLoad s.localAutoOpenGenerator s.sessionGeneratorArmed s.openedPhotos

/-- The spec's controller modes (§4.3). -/
inductive Mode where
  | disabled
  | enabledDisarmed
  | enabledArmed
deriving Repr, DecidableEq

/-- Mode of a controller state: `Disabled` when auto-dispatch is off,
otherwise armed/disarmed according to `isArmed`. -/
def mode (s : DispatchState) : Mode :=
  if !s.autoOpenGenerator then Mode.disabled
  else if s.isArmed then Mode.enabledArmed
  else Mode.enabledDisarmed

/-- One user- or feed-driven operation on the controller. -/
inductive Op where
  /-- A realtime `INSERT` event for `photo`. -/
  | photoInsert (env : BrowserEnv) (photo : Photo)
  /-- The auto-open switch toggled to `checked`. -/
  | autoOpenToggle (checked : Bool)
  /-- The "Armar auto-abrir" button. -/
  | arm (env : BrowserEnv)
  /-- The "Parar" button. -/
  | disarm (env : BrowserEnv)
  /-- The manual "Abrir no Gerador de Crachás" button on `photo`. -/
  | manualOpen (env : BrowserEnv) (photo : Photo)

/-- Apply one operation. -/
def applyOp (badgesUrl : String) (s : DispatchState) :
    Op → DispatchState × List Effect
  | Op.photoInsert env p => onPhotoInsert badgesUrl env s p
  | Op.autoOpenToggle c => handleAutoOpenToggle s c
  | Op.arm env => armAutoOpen env s
  | Op.disarm env => disarmAutoOpen env s
  | Op.manualOpen env p => handleOpenInBadgeGenerator badgesUrl env s p

/-- Run a list of operations, threading the state. -/
def runOps (badgesUrl : String) (s : DispatchState) : List Op → DispatchState
  | [] => s
  | op :: rest => runOps badgesUrl (applyOp badgesUrl s op).1 rest

/-- `true` iff the effect list contains no tab navigation (neither a
redirect of the armed window nor a `window.open` call). -/
def navFree (fx : List Effect) : Bool :=
  fx.all fun e =>
    match e with
    | Effect.winNavigate _ => false
    | Effect.winOpen _ => false
    | _ => true

/-- `true` iff the effect list contains a `window.open` call. -/
def opensFreshTab (fx : List Effect) : Bool :=
  fx.any fun e =>
    match e with
    | Effect.winOpen _ => true
    | _ => false

/-- `true` iff the effect list contains a toast. -/
def hasToast (fx : List Effect) : Bool :=
  fx.any fun e =>
    match e with
    | Effect.toast _ => true
    | _ => false

/-! ### Concrete fixtures used by counterexamples and witnesses -/

def photoA : Photo :=
  { id := "p1", file_url := "https://pics.example/p1.jpg", file_path := none,
    created_at := "2024-01-01", processed := false, name := none, role := none }

def photoB : Photo :=
  { id := "p2", file_url := "https://pics.example/p2.jpg", file_path := none,
    created_at := "2024-01-01", processed := false, name := none, role := none }

def photoRaw : Photo :=
  { id := "p9", file_url := "", file_path := some "badges/raw.jpg",
    created_at := "", processed := false, name := none, role := none }

def armedState : DispatchState :=
  { autoOpenGenerator := true, isArmed := true, generatorWin := some (),
    lastAutoOpenTime := 0, localAutoOpenGenerator := some "true",
    sessionGeneratorArmed := some "true", openedPhotos := [] }

def dupState : DispatchState :=
  { autoOpenGenerator := true, isArmed := true, generatorWin := some (),
    lastAutoOpenTime := 1000, localAutoOpenGenerator := some "true",
    sessionGeneratorArmed := some "true", openedPhotos := ["p1"] }

def envOk : BrowserEnv :=
  { now := 10000, winClosed := false, popupAllowed := true, signedUrl := none,
    resolveThrows := false, navThrows := false }

def envLater : BrowserEnv :=
  { now := 12000, winClosed := false, popupAllowed := true, signedUrl := none,
    resolveThrows := false, navThrows := false }

def envSoon : BrowserEnv :=
  { now := 1500, winClosed := false, popupAllowed := true, signedUrl := none,
    resolveThrows := false, navThrows := false }

def envClosedTab : BrowserEnv :=
  { now := 10000, winClosed := true, popupAllowed := true, signedUrl := none,
    resolveThrows := false, navThrows := false }

def envBlocked : BrowserEnv :=
  { now := 10000, winClosed := true, popupAllowed := false, signedUrl := none,
    resolveThrows := false, navThrows := false }

def envManualBlocked : BrowserEnv :=
  { now := 10000, winClosed := false, popupAllowed := false, signedUrl := none,
    resolveThrows := false, navThrows := false }

def armedAfterLoad : DispatchState :=
  (armAutoOpen envOk (pageLoad (some "true") none [])).1

/-! ### Helper lemmas -/

theorem mem_addToSet_of_mem {l : List String} {x : String} (y : String) (h : x ∈ l) :
    x ∈ addToSet l y := by
  unfold addToSet
  split
  · exact h
  · exact List.mem_append_left _ h

theorem mem_addToSet_self (l : List String) (x : String) : x ∈ addToSet l x := by
  unfold addToSet
  split
  · next hc => exact List.elem_iff.mp hc
  · exact List.mem_append_right _ (List.mem_singleton.mpr rfl)

theorem auto_openedPhotos_mono (b : String) (env : BrowserEnv) (s : DispatchState)
    (p : Photo) {pid : String} (h : pid ∈ s.openedPhotos) :
    pid ∈ (autoOpenBadgeGenerator b env s p).state.openedPhotos := by
  unfold autoOpenBadgeGenerator
  repeat' split
  all_goals first
    | exact h
    | exact mem_addToSet_of_mem _ h

theorem auto_navFree_of_mem (b : String) (env : BrowserEnv) (s : DispatchState)
    (p : Photo) (h : p.id ∈ s.openedPhotos) :
    navFree (autoOpenBadgeGenerator b env s p).effects = true := by
  have hc : s.openedPhotos.contains p.id = true := List.elem_iff.mpr h
  by_cases h1 : env.now - s.lastAutoOpenTime < 2000 <;>
    simp [autoOpenBadgeGenerator, h1, hc, h, navFree]

theorem auto_success_mem (b : String) (env : BrowserEnv) (s : DispatchState) (p : Photo)
    (h : (autoOpenBadgeGenerator b env s p).outcome = AutoOutcome.navigated ∨
         (autoOpenBadgeGenerator b env s p).outcome = AutoOutcome.openedFresh) :
    p.id ∈ (autoOpenBadgeGenerator b env s p).state.openedPhotos := by
  unfold autoOpenBadgeGenerator at h ⊢
  repeat' split at h
  all_goals simp_all [markPhotoAsOpened, mem_addToSet_self]
  all_goals repeat' split
  all_goals simp_all [markPhotoAsOpened, mem_addToSet_self]
  all_goals omega

theorem auto_success_gate (b : String) (env : BrowserEnv) (s : DispatchState) (p : Photo)
    (h : (autoOpenBadgeGenerator b env s p).outcome = AutoOutcome.navigated ∨
         (autoOpenBadgeGenerator b env s p).outcome = AutoOutcome.openedFresh) :
    s.lastAutoOpenTime + 2000 ≤ env.now ∧
      (autoOpenBadgeGenerator b env s p).state.lastAutoOpenTime = env.now := by
  unfold autoOpenBadgeGenerator at h ⊢
  repeat' split at h
  all_goals simp_all [markPhotoAsOpened]
  all_goals repeat' split
  all_goals simp_all [markPhotoAsOpened]
  all_goals omega

theorem auto_last_mono (b : String) (env : BrowserEnv) (s : DispatchState) (p : Photo) :
    s.lastAutoOpenTime ≤ (autoOpenBadgeGenerator b env s p).state.lastAutoOpenTime := by
  unfold autoOpenBadgeGenerator
  repeat' split
  all_goals simp_all [markPhotoAsOpened]
  all_goals omega

theorem onPhotoInsert_openedPhotos_mono (b : String) (env : BrowserEnv)
    (s : DispatchState) (p : Photo) {pid : String} (h : pid ∈ s.openedPhotos) :
    pid ∈ (onPhotoInsert b env s p).1.openedPhotos := by
  unfold onPhotoInsert
  split
  · exact auto_openedPhotos_mono b env s p h
  · exact h

theorem applyOp_openedPhotos_mono (b : String) (s : DispatchState) (op : Op)
    {pid : String} (h : pid ∈ s.openedPhotos) :
    pid ∈ (applyOp b s op).1.openedPhotos := by
  cases op with
  | photoInsert env p => exact onPhotoInsert_openedPhotos_mono b env s p h
  | autoOpenToggle c =>
    simp only [applyOp, handleAutoOpenToggle]
    split <;> exact h
  | arm env =>
    simp only [applyOp, armAutoOpen]
    split <;> exact h
  | disarm env => exact h
  | manualOpen env p =>
    simp only [applyOp, handleOpenInBadgeGenerator]
    split <;> exact h

theorem runOps_openedPhotos_mono (b : String) (ops : List Op) (s : DispatchState)
    {pid : String} (h : pid ∈ s.openedPhotos) :
    pid ∈ (runOps b s ops).openedPhotos := by
  induction ops generalizing s with
  | nil => exact h
  | cons op rest ih => exact ih _ (applyOp_openedPhotos_mono b s op h)

theorem onPhotoInsert_last_mono (b : String) (env : BrowserEnv)
    (s : DispatchState) (p : Photo) :
    s.lastAutoOpenTime ≤ (onPhotoInsert b env s p).1.lastAutoOpenTime := by
  unfold onPhotoInsert
  split
  · exact auto_last_mono b env s p
  · exact Nat.le_refl _

theorem applyOp_last_mono (b : String) (s : DispatchState) (op : Op) :
    s.lastAutoOpenTime ≤ (applyOp b s op).1.lastAutoOpenTime := by
  cases op with
  | photoInsert env p => exact onPhotoInsert_last_mono b env s p
  | autoOpenToggle c =>
    simp only [applyOp, handleAutoOpenToggle]
    split <;> exact Nat.le_refl _
  | arm env =>
    simp only [applyOp, armAutoOpen]
    split <;> exact Nat.le_refl _
  | disarm env => exact Nat.le_refl _
  | manualOpen env p =>
    simp only [applyOp, handleOpenInBadgeGenerator]
    split <;> exact Nat.le_refl _

theorem runOps_last_mono (b : String) (ops : List Op) (s : DispatchState) :
    s.lastAutoOpenTime ≤ (runOps b s ops).lastAutoOpenTime := by
  induction ops generalizing s with
  | nil => exact Nat.le_refl _
  | cons op rest ih => exact Nat.le_trans (applyOp_last_mono b s op) (ih _)

theorem onPhotoInsert_navFree_of_mem (b : String) (env : BrowserEnv)
    (s : DispatchState) (p : Photo) (h : p.id ∈ s.openedPhotos) :
    navFree (onPhotoInsert b env s p).2 = true := by
  unfold onPhotoInsert
  split
  · have h2 := auto_navFree_of_mem b env s p h
    simp only [navFree, List.all_append] at h2 ⊢
    simp [h2]
  · rfl

/-! ### Claims -/

/-- C1 counterexample: a record-created event handled in `Enabled/Armed`
with the armed tab handle referring to a closed tab does NOT transition to
`Enabled/Disarmed` and DOES open a fresh browser tab on the auto path — at
a concrete armed state with a closed handle, the controller stays in
`Enabled/Armed` and a `window.open` call occurs. -/
theorem C1_counterexample :
    mode (onPhotoInsert BADGES_URL envClosedTab armedState photoA).1 = Mode.enabledArmed ∧
    opensFreshTab (onPhotoInsert BADGES_URL envClosedTab armedState photoA).2 = true := by
  decide

/-- C1 amended: for every record-created event handled in `Enabled/Armed`
whose armed tab handle refers to a closed tab (gates passing, resolution
not throwing, pop-up allowed), the dispatch falls back to opening a fresh
browser tab at the badge URL, stores the new handle, marks the photo
dispatched, and does not disarm. -/
theorem C1_amended (b : String) (env : BrowserEnv) (s : DispatchState) (p : Photo)
    (hEnabled : s.autoOpenGenerator = true) (hArmed : s.isArmed = true)
    (hUnproc : p.processed = false)
    (_hWin : s.generatorWin = some ()) (hClosed : env.winClosed = true)
    (hRate : ¬ env.now - s.lastAutoOpenTime < 2000)
    (hNew : p.id ∉ s.openedPhotos)
    (hNoThrow : env.resolveThrows = false)
    (hPopup : env.popupAllowed = true) :
    (onPhotoInsert b env s p).1.isArmed = true ∧
    (onPhotoInsert b env s p).1.generatorWin = some () ∧
    Effect.winOpen (getBadgeUrl b p env.signedUrl) ∈ (onPhotoInsert b env s p).2 ∧
    p.id ∈ (onPhotoInsert b env s p).1.openedPhotos := by
  have hc : s.openedPhotos.contains p.id = false := by
    simpa [List.elem_iff] using hNew
  have hAlive : winAlive env s = false := by simp [winAlive, hClosed]
  simp [onPhotoInsert, hEnabled, hArmed, hUnproc, autoOpenBadgeGenerator, hRate, hc,
    hNew, hNoThrow, hAlive, hPopup, markPhotoAsOpened, mem_addToSet_self]

/-- C1 amended, instantiated at the concrete closed-tab scenario. -/
theorem C1_amended_witness :
    (onPhotoInsert BADGES_URL envClosedTab armedState photoA).1.isArmed = true ∧
    (onPhotoInsert BADGES_URL envClosedTab armedState photoA).1.generatorWin = some () ∧
    Effect.winOpen (getBadgeUrl BADGES_URL photoA envClosedTab.signedUrl) ∈
      (onPhotoInsert BADGES_URL envClosedTab armedState photoA).2 ∧
    photoA.id ∈ (onPhotoInsert BADGES_URL envClosedTab armedState photoA).1.openedPhotos :=
  C1_amended BADGES_URL envClosedTab armedState photoA rfl rfl rfl rfl rfl
    (by decide) (by decide) rfl rfl

/-- C2 counterexample: `sessionStorage` survives a same-tab reload, so a
state reached by arming (with `generatorArmed = "true"` and
`autoOpenGenerator = "true"` persisted) reloads into `Enabled/Armed`, not
`Enabled/Disarmed`. -/
theorem C2_counterexample :
    armedAfterLoad.localAutoOpenGenerator = some "true" ∧
    (reload armedAfterLoad).isArmed = true ∧
    mode (reload armedAfterLoad) = Mode.enabledArmed := by
  decide

/-- C2 amended: after a reload the armed flag is rehydrated from the
persisted `generatorArmed` session entry (which survives a same-tab
reload): the controller starts armed iff that entry is `"true"`, while the
tab handle is reset to `null` and `lastAutoOpenTime` to `0`. -/
theorem C2_amended (s : DispatchState) :
    (reload s).isArmed = (s.sessionGeneratorArmed == some "true") ∧
    (reload s).autoOpenGenerator = (s.localAutoOpenGenerator == some "true") ∧
    (reload s).generatorWin = none ∧
    (reload s).lastAutoOpenTime = 0 := by
  simp [reload, pageLoad]

/-- C3 counterexample: an event for a record already in `dispatchedIds`
arriving less than 2 seconds after the last successful dispatch is dropped
by the RATE gate (with a rate-limit log), not by the dedup gate: the
outcome is `rateSkip`, not `dedupSkip`. -/
theorem C3_counterexample :
    (autoOpenBadgeGenerator BADGES_URL envSoon dupState photoA).outcome =
      AutoOutcome.rateSkip ∧
    (autoOpenBadgeGenerator BADGES_URL envSoon dupState photoA).outcome ≠
      AutoOutcome.dedupSkip ∧
    (autoOpenBadgeGenerator BADGES_URL envSoon dupState photoA).effects =
      [Effect.consoleLog "Rate limiting: skipping auto-open due to recent activity"] ∧
    photoA.id ∈ dupState.openedPhotos := by
  decide

/-- C3 amended: the rate gate is applied first and the dedup gate second.
For a record already in `dispatchedIds`: if the event arrives less than
2 seconds after the last successful dispatch it is dropped by the rate
gate; otherwise it is dropped by the dedup gate; either way the state is
unchanged and no tab navigation occurs. -/
theorem C3_amended (b : String) (env : BrowserEnv) (s : DispatchState) (p : Photo)
    (hMem : p.id ∈ s.openedPhotos) :
    (env.now - s.lastAutoOpenTime < 2000 →
      (autoOpenBadgeGenerator b env s p).outcome = AutoOutcome.rateSkip) ∧
    (¬ env.now - s.lastAutoOpenTime < 2000 →
      (autoOpenBadgeGenerator b env s p).outcome = AutoOutcome.dedupSkip) ∧
    (autoOpenBadgeGenerator b env s p).state = s ∧
    navFree (autoOpenBadgeGenerator b env s p).effects = true := by
  have hc : s.openedPhotos.contains p.id = true := List.elem_iff.mpr hMem
  by_cases h1 : env.now - s.lastAutoOpenTime < 2000 <;>
    simp [autoOpenBadgeGenerator, h1, hc, hMem, navFree]

/-- C3 amended, instantiated at a concrete already-dispatched record
arriving 500 ms after the last dispatch. -/
theorem C3_amended_witness :
    (envSoon.now - dupState.lastAutoOpenTime < 2000 →
      (autoOpenBadgeGenerator BADGES_URL envSoon dupState photoA).outcome =
        AutoOutcome.rateSkip) ∧
    (¬ envSoon.now - dupState.lastAutoOpenTime < 2000 →
      (autoOpenBadgeGenerator BADGES_URL envSoon dupState photoA).outcome =
        AutoOutcome.dedupSkip) ∧
    (autoOpenBadgeGenerator BADGES_URL envSoon dupState photoA).state = dupState ∧
    navFree (autoOpenBadgeGenerator BADGES_URL envSoon dupState photoA).effects = true :=
  C3_amended BADGES_URL envSoon dupState photoA (by decide)

/-- C4: once auto-dispatch has succeeded for a record, re-delivering the
creation event for the same record after any sequence of operations in
the same tab session produces no further tab navigation (neither a
redirect of the armed window nor a `window.open` call). -/
theorem C4_theorem (b : String) (env env2 : BrowserEnv) (s : DispatchState)
    (p : Photo) (ops : List Op)
    (h : (autoOpenBadgeGenerator b env s p).outcome = AutoOutcome.navigated ∨
         (autoOpenBadgeGenerator b env s p).outcome = AutoOutcome.openedFresh) :
    navFree (onPhotoInsert b env2
      (runOps b (autoOpenBadgeGenerator b env s p).state ops) p).2 = true := by
  have h1 := auto_success_mem b env s p h
  have h2 := runOps_openedPhotos_mono b ops _ h1
  exact onPhotoInsert_navFree_of_mem b env2 _ p h2

/-- C4, instantiated: after a successful dispatch of `photoA`, an
immediate re-delivery navigates nothing. -/
theorem C4_witness :
    navFree (onPhotoInsert BADGES_URL envSoon
      (runOps BADGES_URL (autoOpenBadgeGenerator BADGES_URL envOk armedState photoA).state [])
      photoA).2 = true :=
  C4_theorem BADGES_URL envOk envSoon armedState photoA [] (Or.inl (by decide))

/-- C5: for any two successful auto-dispatches in the same tab session —
one at time `env1.now`, a later one at time `env2.now` after any sequence
of operations — the second is at least 2000 ms after the first. -/
theorem C5_theorem (b : String) (env1 env2 : BrowserEnv) (s : DispatchState)
    (p1 p2 : Photo) (ops : List Op)
    (h1 : (autoOpenBadgeGenerator b env1 s p1).outcome = AutoOutcome.navigated ∨
          (autoOpenBadgeGenerator b env1 s p1).outcome = AutoOutcome.openedFresh)
    (h2 : (autoOpenBadgeGenerator b env2
            (runOps b (autoOpenBadgeGenerator b env1 s p1).state ops) p2).outcome =
            AutoOutcome.navigated ∨
          (autoOpenBadgeGenerator b env2
            (runOps b (autoOpenBadgeGenerator b env1 s p1).state ops) p2).outcome =
            AutoOutcome.openedFresh) :
    env1.now + 2000 ≤ env2.now := by
  obtain ⟨g1a, g1b⟩ := auto_success_gate b env1 s p1 h1
  obtain ⟨g2a, g2b⟩ := auto_success_gate b env2 _ p2 h2
  have hm := runOps_last_mono b ops (autoOpenBadgeGenerator b env1 s p1).state
  omega

/-- C5, instantiated: successful dispatches at `t = 10000` and
`t = 12000`. -/
theorem C5_witness : envOk.now + 2000 ≤ envLater.now :=
  C5_theorem BADGES_URL envOk envLater armedState photoA photoB []
    (Or.inl (by decide)) (Or.inl (by decide))

/-- C6 counterexample: a manual per-record dispatch whose `window.open`
is blocked produces NO user-visible notice at all — the `window.open`
return value is never checked, so the claimed `PopupBlocked` notice does
not exist. -/
theorem C6_counterexample :
    envManualBlocked.popupAllowed = false ∧
    hasToast (handleOpenInBadgeGenerator BADGES_URL envManualBlocked armedState photoA).2 =
      false ∧
    (handleOpenInBadgeGenerator BADGES_URL envManualBlocked armedState photoA).2 =
      [Effect.winOpen (getBadgeUrl BADGES_URL photoA none)] := by
  decide

/-- C6 amended: manual per-record dispatch, in every controller state,
is exempt from the dedup and rate gates: it always calls `window.open` on
the badge URL and leaves the controller state unchanged, so two manual
dispatches of the same record in immediate succession both attempt to
open a tab; however a blocked pop-up fails silently (no toast). -/
theorem C6_amended (b : String) (env env2 : BrowserEnv) (s : DispatchState) (p : Photo)
    (h : env.resolveThrows = false) (h2 : env2.resolveThrows = false) :
    (handleOpenInBadgeGenerator b env s p).1 = s ∧
    (handleOpenInBadgeGenerator b env s p).2 =
      [Effect.winOpen (getBadgeUrl b p env.signedUrl)] ∧
    (handleOpenInBadgeGenerator b env2 (handleOpenInBadgeGenerator b env s p).1 p).2 =
      [Effect.winOpen (getBadgeUrl b p env2.signedUrl)] ∧
    hasToast (handleOpenInBadgeGenerator b env s p).2 = false := by
  simp [handleOpenInBadgeGenerator, h, h2, hasToast]

/-- C6 amended, instantiated at a concrete blocked-pop-up manual
dispatch. -/
theorem C6_amended_witness :
    (handleOpenInBadgeGenerator BADGES_URL envManualBlocked armedState photoA).1 =
      armedState ∧
    (handleOpenInBadgeGenerator BADGES_URL envManualBlocked armedState photoA).2 =
      [Effect.winOpen (getBadgeUrl BADGES_URL photoA envManualBlocked.signedUrl)] ∧
    (handleOpenInBadgeGenerator BADGES_URL envManualBlocked
      (handleOpenInBadgeGenerator BADGES_URL envManualBlocked armedState photoA).1
      photoA).2 =
      [Effect.winOpen (getBadgeUrl BADGES_URL photoA envManualBlocked.signedUrl)] ∧
    hasToast (handleOpenInBadgeGenerator BADGES_URL envManualBlocked armedState photoA).2 =
      false :=
  C6_amended BADGES_URL envManualBlocked envManualBlocked armedState photoA rfl rfl

/-- C7 counterexample: toggling auto-dispatch off from an armed state
with a live tab handle clears `isArmed` and the handle but emits NO
`winClose` effect — the managed external tab is not closed. -/
theorem C7_counterexample :
    armedState.generatorWin = some () ∧
    (handleAutoOpenToggle armedState false).2 = [] ∧
    (handleAutoOpenToggle armedState false).1.isArmed = false ∧
    (handleAutoOpenToggle armedState false).1.generatorWin = none := by
  decide

/-- C7 amended: for every prior state, toggling auto-dispatch off
results in `armed = false`, a cleared session entry and a cleared tab
handle, but never closes the managed external tab (no `winClose`
effect). -/
theorem C7_amended (s : DispatchState) :
    (handleAutoOpenToggle s false).1.autoOpenGenerator = false ∧
    (handleAutoOpenToggle s false).1.isArmed = false ∧
    (handleAutoOpenToggle s false).1.generatorWin = none ∧
    (handleAutoOpenToggle s false).1.sessionGeneratorArmed = none ∧
    Effect.winClose ∉ (handleAutoOpenToggle s false).2 := by
  simp [handleAutoOpenToggle]

/-- C8: every failed auto-dispatch attempt (pop-up blocked on the
fallback open, or an error thrown during URL resolution or navigation)
leaves `dispatchedIds` (`openedPhotos`) and `lastDispatchTimestamp`
(`lastAutoOpenTime`) unchanged. -/
theorem C8_theorem (b : String) (env : BrowserEnv) (s : DispatchState) (p : Photo)
    (h : (autoOpenBadgeGenerator b env s p).outcome = AutoOutcome.popupBlocked ∨
         (autoOpenBadgeGenerator b env s p).outcome = AutoOutcome.errored) :
    (autoOpenBadgeGenerator b env s p).state.openedPhotos = s.openedPhotos ∧
    (autoOpenBadgeGenerator b env s p).state.lastAutoOpenTime = s.lastAutoOpenTime := by
  unfold autoOpenBadgeGenerator at h ⊢
  repeat' split at h
  all_goals repeat' split
  all_goals simp_all

/-- C8, instantiated at a concrete blocked fallback open. -/
theorem C8_witness :
    (autoOpenBadgeGenerator BADGES_URL envBlocked armedState photoA).state.openedPhotos =
      armedState.openedPhotos ∧
    (autoOpenBadgeGenerator BADGES_URL envBlocked armedState photoA).state.lastAutoOpenTime =
      armedState.lastAutoOpenTime :=
  C8_theorem BADGES_URL envBlocked armedState photoA (Or.inl (by decide))

/-- C9 counterexample: for a record with an empty `file_url` and an
internal `file_path`, a failed signed-URL resolution makes `getPhotoUrl`
return the empty string — not the unresolved raw reference
`"badges/raw.jpg"` — so the dispatch does not proceed with a usable
URL. -/
theorem C9_counterexample :
    photoRaw.file_path = some "badges/raw.jpg" ∧
    getPhotoUrl photoRaw none = "" ∧
    getPhotoUrl photoRaw none ≠ "badges/raw.jpg" := by
  decide

/-- C9 amended: on signed-URL failure (`StorageError`) the resolver does
not abort but falls back to the record's `file_url` field; since the
signed-URL branch is only reached when `file_url` is empty, the dispatch
proceeds with an empty photo URL rather than the raw storage path. -/
theorem C9_amended (p : Photo) (pa : String)
    (hUrl : p.file_url = "") (hPath : p.file_path = some pa) (hne : pa ≠ "") :
    getPhotoUrl p none = p.file_url ∧ getPhotoUrl p none = "" := by
  simp [getPhotoUrl, hUrl, hPath, hne]

/-- C9 amended, instantiated at a concrete record with only a
`file_path`. -/
theorem C9_amended_witness :
    getPhotoUrl photoRaw none = photoRaw.file_url ∧ getPhotoUrl photoRaw none = "" :=
  C9_amended photoRaw "badges/raw.jpg" rfl rfl (by decide)

/-- C10: within one tab session the set of already-dispatched photo ids
(`openedPhotos`) is monotone non-decreasing under every core operation —
no insert event, toggle, arm, disarm or manual dispatch ever removes an
id. -/
theorem C10_theorem (b : String) (s : DispatchState) (op : Op) (pid : String)
    (h : pid ∈ s.openedPhotos) : pid ∈ (applyOp b s op).1.openedPhotos :=
  applyOp_openedPhotos_mono b s op h

/-- C10, instantiated: disarming preserves a dispatched id. -/
theorem C10_witness :
    "p1" ∈ (applyOp BADGES_URL dupState (Op.disarm envOk)).1.openedPhotos :=
  C10_theorem BADGES_URL dupState (Op.disarm envOk) "p1" (by decide)

end BadgeCapture
